import Mathlib

/-!
Shallow embedding of the donation lifecycle of the portfolio application:
the CoffeePurchase model with its save and mark_as_paid methods
(src/main/models.py), the admin bulk actions (src/main/admin.py), the
view-level payment simulation and the public supporters listing
(src/main/views.py), and the SiteSettings singleton (src/main/models.py).

Conventions of the embedding:
- Timestamps are abstract clock readings (natural numbers); the current
  time is passed explicitly to every operation that reads the clock.
- Monetary amounts are integers in hundredths of a unit: the amount
  column is a DecimalField with decimal_places=2, so every representable
  value is an exact number of hundredths.
- CharField and TextField values are strings; nullable columns are
  Option; blank CharFields default to the empty string.
- A fallible operation returns Except; raising ValidationError is the
  error case.
-/

/-- Abstract clock reading. -/
abbrev Time := Nat

/-- A Python numeric value as it enters arithmetic, tagged with its
runtime type. A DecimalField attribute is a decimal.Decimal; a numeric
literal such as 3.00 is a float. Both payloads are exact values in
hundredths (every number appearing in this program is representable so).
Python raises TypeError on arithmetic mixing Decimal with float. -/
inductive PyNum where
  | decimal (cents : Int)
  | float (cents : Int)
deriving DecidableEq

/-- Model of the Python expression int(a / b) on two numeric values:
true division followed by int(), which truncates toward zero. Mixing
Decimal with float raises TypeError, modelled as none. Since both
payloads are in hundredths, (a/100)/(b/100) = a/b and the truncation is
Int.tdiv. -/
def pyDivInt : PyNum → PyNum → Option Int
  | .decimal a, .decimal b => some (a.tdiv b)
  | .float a, .float b => some (a.tdiv b)
  | .decimal _, .float _ => none
  | .float _, .decimal _ => none

/-- One row of the main_coffeepurchase table. The id is none until the
row is inserted. created_at and updated_at come from TimeStampedModel
(auto_now_add and auto_now). -/
structure CoffeePurchase where
  id : Option Nat
  name : String
  email : String
  amount : Int
  currency : String
  payment_method : String
  payment_status : String
  transaction_id : String
  mpesa_code : String
  is_paid : Bool
  paid_at : Option Time
  message : String
  public_message : Bool
  ip_address : Option String
  user_agent : String
  created_at : Time
  updated_at : Time
deriving DecidableEq

/-- First block of CoffeePurchase.save: update paid_at when payment is
completed. The Python guard `not self.paid_at` is true exactly when
paid_at is None (a datetime is always truthy). -/
def stampPaidAt (now : Time) (r : CoffeePurchase) : CoffeePurchase :=
  if r.is_paid ∧ r.payment_status = "completed" ∧ r.paid_at = none then
    { r with paid_at := some now }
  else r

/-- Second block of CoffeePurchase.save: sync payment status with
is_paid. Note the elif branch rewrites payment_status to pending; it
does not touch is_paid. -/
def syncStatus (r : CoffeePurchase) : CoffeePurchase :=
  if r.is_paid ∧ r.payment_status ≠ "completed" then
    { r with payment_status := "completed" }
  else if ¬ r.is_paid ∧ r.payment_status = "completed" then
    { r with payment_status := "pending" }
  else r

/-- The super().save() call: persisting a row refreshes updated_at
(auto_now). -/
def persistRow (now : Time) (r : CoffeePurchase) : CoffeePurchase :=
  { r with updated_at := now }

/-- CoffeePurchase.save, the composition of its three steps in source
order. -/
def save (now : Time) (r : CoffeePurchase) : CoffeePurchase :=
  persistRow now (syncStatus (stampPaidAt now r))

/-- The guarded assignment `if transaction_id: self.transaction_id = ...`
inside mark_as_paid: stores the identifier exactly when it is truthy
(not None and nonempty). -/
def setTid (tid : Option String) (r : CoffeePurchase) : CoffeePurchase :=
  match tid with
  | some s => if s ≠ "" then { r with transaction_id := s } else r
  | none => r

/-- The guarded assignment `if mpesa_code: self.mpesa_code = ...` inside
mark_as_paid. -/
def setMpesa (mcode : Option String) (r : CoffeePurchase) : CoffeePurchase :=
  match mcode with
  | some s => if s ≠ "" then { r with mpesa_code := s } else r
  | none => r

/-- CoffeePurchase.mark_as_paid: unconditionally sets is_paid, sets
payment_status to completed, stamps paid_at with the current time,
stores each supplied identifier when it is truthy, then calls save. -/
def mark_as_paid (now : Time) (tid mcode : Option String)
    (r : CoffeePurchase) : CoffeePurchase :=
  save now (setMpesa mcode (setTid tid
    { r with is_paid := true, payment_status := "completed",
             paid_at := some now }))

/-- The admin bulk action mark_as_paid: queryset.update writes the two
columns directly at the database level, bypassing CoffeePurchase.save,
so no other column (in particular paid_at and updated_at) changes. -/
def admin_mark_as_paid (r : CoffeePurchase) : CoffeePurchase :=
  { r with is_paid := true, payment_status := "completed" }

/-- The admin bulk action mark_as_pending: queryset.update of the two
columns, likewise bypassing CoffeePurchase.save. -/
def admin_mark_as_pending (r : CoffeePurchase) : CoffeePurchase :=
  { r with is_paid := false, payment_status := "pending" }

/-- Creation of a purchase from the donation form: MinValueValidator
with limit 1.00 rejects any amount strictly below 1.00 (100 hundredths)
with ValidationError before anything is persisted; otherwise a fresh row
with the model field defaults (payment_status pending, is_paid false,
paid_at null, currency USD, payment_method mpesa, public_message false)
is persisted through CoffeePurchase.save and assigned an id. -/
def create (now : Time) (rid : Nat) (nm em : String) (amount : Int)
    (msg : String) (ip : Option String) (ua : String) :
    Except Unit CoffeePurchase :=
  if amount < 100 then
    .error ()
  else
    .ok (save now
      { id := some rid, name := nm, email := em, amount := amount,
        currency := "USD", payment_method := "mpesa",
        payment_status := "pending", transaction_id := "",
        mpesa_code := "", is_paid := false, paid_at := none,
        message := msg, public_message := false, ip_address := ip,
        user_agent := ua, created_at := now, updated_at := now })

/-- How a Python f-string renders a possibly missing id. -/
def idStr : Option Nat → String
  | none => "None"
  | some n => toString n

/-- CoffeePurchaseView.process_payment: after the simulated delay (a
blocking sleep, irrelevant to the state), always calls mark_as_paid with
the synthetic identifiers TXN_{id}_{unix time} and MPE{id}, and returns
True. -/
def process_payment (now : Time) (r : CoffeePurchase) :
    Bool × CoffeePurchase :=
  (true, mark_as_paid now
    (some ("TXN_" ++ idStr r.id ++ "_" ++ toString now))
    (some ("MPE" ++ idStr r.id)) r)

/-- CoffeePurchase.display_name: the name when truthy, else the part of
the email before the at sign, else the anonymous label. -/
def display_name (r : CoffeePurchase) : String :=
  if r.name ≠ "" then r.name
  else if r.email ≠ "" then (r.email.splitOn "@").headD ""
  else "Anonymous Supporter"

/-- CoffeePurchase.coffee_count: int(self.amount / coffee_price) where
coffee_price is the float literal 3.00 and self.amount is the
DecimalField value, hence a decimal.Decimal at every call site that
reads a stored row. -/
def coffee_count (amount : PyNum) : Option Int :=
  pyDivInt amount (.float 300)

/-- coffee_count as called on a stored row: the ORM materialises the
amount column as decimal.Decimal. -/
def record_coffee_count (r : CoffeePurchase) : Option Int :=
  coffee_count (.decimal r.amount)

/-- Modelled from the spec: the documented intent of coffee_count,
floor(amount / 3.00) in coffee units (equal to truncation here since
amounts are positive). Stated on the amount in hundredths. -/
def coffee_count_intended (amount : Int) : Int :=
  amount.tdiv 300

/-- Sort key realising ORDER BY paid_at DESC on a nullable column: any
two non-null timestamps compare by value; a null key is mapped below all
non-null ones (which convention a database uses for nulls does not
matter to the stated properties, which only compare non-null pairs). -/
def paidKey : Option Time → Nat
  | none => 0
  | some t => t + 1

/-- The recent-supporters query of CoffeePurchaseView.get_context_data:
filter(is_paid=True, public_message=True), order_by descending paid_at,
sliced to the first limit rows. -/
def list_public_supporters (limit : Nat) (db : List CoffeePurchase) :
    List CoffeePurchase :=
  (((db.filter fun r => r.is_paid && r.public_message).mergeSort
    fun a b => decide (paidKey b.paid_at ≤ paidKey a.paid_at)).take limit)

/-- The listing exactly as the donation page view issues it, with the
slice [:10]. -/
def recent_supporters (db : List CoffeePurchase) : List CoffeePurchase :=
  list_public_supporters 10 db

/-- One row of the SiteSettings table. pk is none until saved. -/
structure SiteSettings where
  pk : Option Nat
  site_name : String
  site_description : String
  admin_email : String
  github_url : String
  linkedin_url : String
  twitter_url : String
  dev_to_url : String
  coffee_enabled : Bool
  default_coffee_amount : Int
  meta_title : String
  meta_description : String
  google_analytics_id : String
deriving DecidableEq

/-- The SiteSettings model field defaults. -/
def defaultSiteSettings : SiteSettings :=
  { pk := none, site_name := "Marube Snipher Abel", site_description := "",
    admin_email := "hello@marube.dev", github_url := "",
    linkedin_url := "", twitter_url := "", dev_to_url := "",
    coffee_enabled := true, default_coffee_amount := 500,
    meta_title := "", meta_description := "", google_analytics_id := "" }

/-- The settings table: rows keyed by primary key. -/
abbrev SettingsTable := List (Nat × SiteSettings)

/-- Writing a row at a primary key: replaces any row with that key,
inserting when absent (primary keys are unique in the table). -/
def upsert (k : Nat) (v : SiteSettings) (db : SettingsTable) :
    SettingsTable :=
  (db.filter fun p => p.1 != k) ++ [(k, v)]

/-- SiteSettings.save: forces pk to 1, then persists, so the write
always lands on the single row with primary key 1. -/
def save_settings (s : SiteSettings) (db : SettingsTable) :
    SiteSettings × SettingsTable :=
  let s1 := { s with pk := some 1 }
  (s1, upsert 1 s1 db)

/-- SiteSettings.load: get_or_create(pk=1) — return the row with
primary key 1 when it exists, otherwise create it from the field
defaults (the creation goes through SiteSettings.save, which forces
pk to 1). -/
def load_settings (db : SettingsTable) : SiteSettings × SettingsTable :=
  match db.find? (fun p => p.1 == 1) with
  | some p => (p.2, db)
  | none => save_settings defaultSiteSettings db

/-- The invariant tying the paid flag to the payment status. -/
abbrev statusSynced (r : CoffeePurchase) : Prop :=
  r.is_paid = true ↔ r.payment_status = "completed"

/-! ### Helper lemmas about the write paths -/

theorem save_is_paid (now : Time) (r : CoffeePurchase) :
    (save now r).is_paid = r.is_paid := by
  simp only [save, persistRow, syncStatus, stampPaidAt]
  split_ifs <;> rfl

theorem save_transaction_id (now : Time) (r : CoffeePurchase) :
    (save now r).transaction_id = r.transaction_id := by
  simp only [save, persistRow, syncStatus, stampPaidAt]
  split_ifs <;> rfl

theorem save_mpesa_code (now : Time) (r : CoffeePurchase) :
    (save now r).mpesa_code = r.mpesa_code := by
  simp only [save, persistRow, syncStatus, stampPaidAt]
  split_ifs <;> rfl

theorem save_paid_at_of_some (now : Time) (r : CoffeePurchase) (t : Time)
    (h : r.paid_at = some t) : (save now r).paid_at = some t := by
  simp only [save, persistRow, syncStatus, stampPaidAt]
  split_ifs <;> simp_all

theorem save_paid_at_of_unpaid (now : Time) (r : CoffeePurchase)
    (h : r.is_paid = false) : (save now r).paid_at = r.paid_at := by
  simp only [save, persistRow, syncStatus, stampPaidAt]
  split_ifs <;> simp_all

theorem save_status_of_paid (now : Time) (r : CoffeePurchase)
    (h : r.is_paid = true) : (save now r).payment_status = "completed" := by
  simp only [save, persistRow, syncStatus, stampPaidAt]
  split_ifs <;> simp_all

theorem save_status_of_unpaid (now : Time) (r : CoffeePurchase)
    (h : r.is_paid = false) :
    (save now r).payment_status ≠ "completed" := by
  simp only [save, persistRow, syncStatus, stampPaidAt]
  split_ifs <;> simp_all

theorem save_status_of_unpaid_completed (now : Time) (r : CoffeePurchase)
    (h : r.is_paid = false) (hs : r.payment_status = "completed") :
    (save now r).payment_status = "pending" := by
  simp only [save, persistRow, syncStatus, stampPaidAt]
  split_ifs <;> simp_all

theorem setTid_is_paid (tid : Option String) (r : CoffeePurchase) :
    (setTid tid r).is_paid = r.is_paid := by
  cases tid with
  | none => rfl
  | some s => by_cases h : s = "" <;> simp [setTid, h]

theorem setTid_payment_status (tid : Option String) (r : CoffeePurchase) :
    (setTid tid r).payment_status = r.payment_status := by
  cases tid with
  | none => rfl
  | some s => by_cases h : s = "" <;> simp [setTid, h]

theorem setTid_paid_at (tid : Option String) (r : CoffeePurchase) :
    (setTid tid r).paid_at = r.paid_at := by
  cases tid with
  | none => rfl
  | some s => by_cases h : s = "" <;> simp [setTid, h]

theorem setMpesa_is_paid (mcode : Option String) (r : CoffeePurchase) :
    (setMpesa mcode r).is_paid = r.is_paid := by
  cases mcode with
  | none => rfl
  | some s => by_cases h : s = "" <;> simp [setMpesa, h]

theorem setMpesa_payment_status (mcode : Option String) (r : CoffeePurchase) :
    (setMpesa mcode r).payment_status = r.payment_status := by
  cases mcode with
  | none => rfl
  | some s => by_cases h : s = "" <;> simp [setMpesa, h]

theorem setMpesa_paid_at (mcode : Option String) (r : CoffeePurchase) :
    (setMpesa mcode r).paid_at = r.paid_at := by
  cases mcode with
  | none => rfl
  | some s => by_cases h : s = "" <;> simp [setMpesa, h]

theorem setMpesa_transaction_id (mcode : Option String) (r : CoffeePurchase) :
    (setMpesa mcode r).transaction_id = r.transaction_id := by
  cases mcode with
  | none => rfl
  | some s => by_cases h : s = "" <;> simp [setMpesa, h]

theorem mark_as_paid_is_paid (now : Time) (tid mcode : Option String)
    (r : CoffeePurchase) : (mark_as_paid now tid mcode r).is_paid = true := by
  unfold mark_as_paid
  rw [save_is_paid, setMpesa_is_paid, setTid_is_paid]

theorem mark_as_paid_status (now : Time) (tid mcode : Option String)
    (r : CoffeePurchase) :
    (mark_as_paid now tid mcode r).payment_status = "completed" := by
  unfold mark_as_paid
  apply save_status_of_paid
  rw [setMpesa_is_paid, setTid_is_paid]

theorem mark_as_paid_paid_at (now : Time) (tid mcode : Option String)
    (r : CoffeePurchase) :
    (mark_as_paid now tid mcode r).paid_at = some now := by
  unfold mark_as_paid
  apply save_paid_at_of_some
  rw [setMpesa_paid_at, setTid_paid_at]

theorem mark_as_paid_tid_none (now : Time) (mcode : Option String)
    (r : CoffeePurchase) :
    (mark_as_paid now none mcode r).transaction_id = r.transaction_id := by
  unfold mark_as_paid
  rw [save_transaction_id, setMpesa_transaction_id]
  rfl

theorem mark_as_paid_tid_some (now : Time) (s : String)
    (mcode : Option String) (r : CoffeePurchase) (hs : s ≠ "") :
    (mark_as_paid now (some s) mcode r).transaction_id = s := by
  unfold mark_as_paid
  rw [save_transaction_id, setMpesa_transaction_id]
  simp [setTid, hs]

theorem setTid_mpesa_code (tid : Option String) (r : CoffeePurchase) :
    (setTid tid r).mpesa_code = r.mpesa_code := by
  cases tid with
  | none => rfl
  | some s => by_cases h : s = "" <;> simp [setTid, h]

theorem mark_as_paid_mpesa_none (now : Time) (tid : Option String)
    (r : CoffeePurchase) :
    (mark_as_paid now tid none r).mpesa_code = r.mpesa_code := by
  unfold mark_as_paid
  rw [save_mpesa_code]
  show (setTid tid _).mpesa_code = r.mpesa_code
  rw [setTid_mpesa_code]

theorem mark_as_paid_mpesa_some (now : Time) (tid : Option String)
    (s : String) (r : CoffeePurchase) (hs : s ≠ "") :
    (mark_as_paid now tid (some s) r).mpesa_code = s := by
  unfold mark_as_paid
  rw [save_mpesa_code]
  simp [setMpesa, hs]

/-! ### Concrete rows used in counterexamples and witnesses -/

/-- A concrete already-paid row. -/
def paidRec : CoffeePurchase :=
  { id := some 7, name := "", email := "a@b.com", amount := 500,
    currency := "USD", payment_method := "mpesa",
    payment_status := "completed", transaction_id := "TXN_7_0",
    mpesa_code := "MPE7", is_paid := true, paid_at := some 0,
    message := "", public_message := true, ip_address := none,
    user_agent := "", created_at := 0, updated_at := 0 }

/-- A concrete freshly created pending row. -/
def pendingRec : CoffeePurchase :=
  { id := some 3, name := "", email := "", amount := 300,
    currency := "USD", payment_method := "mpesa",
    payment_status := "pending", transaction_id := "", mpesa_code := "",
    is_paid := false, paid_at := none, message := "",
    public_message := false, ip_address := none, user_agent := "",
    created_at := 0, updated_at := 0 }

/-- A row whose two payment fields disagree: payment_status completed
while is_paid is false. -/
def mismatchRec : CoffeePurchase :=
  { pendingRec with payment_status := "completed" }

/-! ### Claim C1 -/

/-- C1, as stated, is false: mark_as_paid stamps paid_at with the
current time unconditionally, so a second call on the already-paid row
paidRec (paid at time 0) moves paid_at to the time of the second call. -/
theorem c1_counterexample :
    paidRec.is_paid = true ∧ paidRec.paid_at = some 0 ∧
    (mark_as_paid 1 none none paidRec).paid_at = some 1 ∧
    (mark_as_paid 1 none none paidRec).paid_at ≠ paidRec.paid_at := by
  decide

/-- C1 (amended): for a record that is already paid, a second
mark_as_paid call sets paid_at to the time of that second call (leaving
it unchanged only when the clock has not advanced), keeps the record
paid and completed, and updates exactly the supplied truthy optional
transaction fields. -/
theorem c1_mark_paid_second_call (now : Time) (tid mcode : Option String)
    (r : CoffeePurchase) (_h : r.is_paid = true) :
    (mark_as_paid now tid mcode r).paid_at = some now ∧
    (mark_as_paid now tid mcode r).is_paid = true ∧
    (mark_as_paid now tid mcode r).payment_status = "completed" ∧
    (tid = none →
      (mark_as_paid now tid mcode r).transaction_id = r.transaction_id) ∧
    (∀ s, tid = some s → s ≠ "" →
      (mark_as_paid now tid mcode r).transaction_id = s) ∧
    (mcode = none →
      (mark_as_paid now tid mcode r).mpesa_code = r.mpesa_code) ∧
    (∀ s, mcode = some s → s ≠ "" →
      (mark_as_paid now tid mcode r).mpesa_code = s) := by
  refine ⟨mark_as_paid_paid_at now tid mcode r,
    mark_as_paid_is_paid now tid mcode r,
    mark_as_paid_status now tid mcode r, ?_, ?_, ?_, ?_⟩
  · intro ht; subst ht; exact mark_as_paid_tid_none now mcode r
  · intro s ht hs; subst ht; exact mark_as_paid_tid_some now s mcode r hs
  · intro hm; subst hm; exact mark_as_paid_mpesa_none now tid r
  · intro s hm hs; subst hm; exact mark_as_paid_mpesa_some now tid s r hs

/-- Witness for C1: the amended theorem applied to the concrete paid row
paidRec at time 3 with fresh identifiers. -/
theorem c1_witness :
    (mark_as_paid 3 (some "T2") (some "M2") paidRec).paid_at = some 3 ∧
    (mark_as_paid 3 (some "T2") (some "M2") paidRec).transaction_id = "T2" ∧
    (mark_as_paid 3 (some "T2") (some "M2") paidRec).mpesa_code = "M2" := by
  have h := c1_mark_paid_second_call 3 (some "T2") (some "M2") paidRec rfl
  exact ⟨h.1, h.2.2.2.2.1 "T2" rfl (by decide),
    h.2.2.2.2.2.2 "M2" rfl (by decide)⟩

/-! ### Claim C2 -/

/-- C2, as stated, is false: the administrative bulk mark-as-paid action
writes is_paid and payment_status directly (queryset.update bypasses
CoffeePurchase.save), so the fresh pending row pendingRec reaches the
paid state while paid_at stays null, refuting the direction "in the paid
state at least once implies paid_at is non-null". -/
theorem c2_counterexample :
    pendingRec.paid_at = none ∧
    (admin_mark_as_paid pendingRec).is_paid = true ∧
    (admin_mark_as_paid pendingRec).payment_status = "completed" ∧
    (admin_mark_as_paid pendingRec).paid_at = none := by
  decide

/-- C2 (amended): across the write paths, paid_at is never cleared once
set, and when save newly sets paid_at the record is paid at that state;
but the converse direction fails in general, since the admin bulk
mark-as-paid leaves paid_at null (see the counterexample). -/
theorem c2_paid_at_never_cleared (now : Time) (tid mcode : Option String)
    (r : CoffeePurchase) :
    (∀ t, r.paid_at = some t →
      (save now r).paid_at = some t ∧
      (mark_as_paid now tid mcode r).paid_at = some now ∧
      (admin_mark_as_paid r).paid_at = some t ∧
      (admin_mark_as_pending r).paid_at = some t) ∧
    (r.paid_at = none → (save now r).paid_at ≠ none →
      (save now r).is_paid = true ∧
      (save now r).payment_status = "completed") := by
  constructor
  · intro t ht
    exact ⟨save_paid_at_of_some now r t ht,
      mark_as_paid_paid_at now tid mcode r, ht, ht⟩
  · intro hn hs
    simp only [save, persistRow, syncStatus, stampPaidAt] at *
    split_ifs at * <;> simp_all

/-- Witness for C2: the amended theorem applied to the concrete paid row
paidRec. -/
theorem c2_witness :
    (save 4 paidRec).paid_at = some 0 ∧
    (admin_mark_as_pending paidRec).paid_at = some 0 := by
  have h := (c2_paid_at_never_cleared 4 none none paidRec).1 0 rfl
  exact ⟨h.1, h.2.2.2⟩

/-! ### Claim C4 -/

/-- C4, as stated, is false: on a row with payment_status completed but
is_paid false, save does not force is_paid to true — it rewrites
payment_status back to pending and leaves is_paid false. -/
theorem c4_counterexample :
    mismatchRec.is_paid = false ∧
    mismatchRec.payment_status = "completed" ∧
    (save 5 mismatchRec).is_paid = false ∧
    (save 5 mismatchRec).payment_status = "pending" := by
  decide

/-- C4 (amended): save enforces the correspondence by adjusting
payment_status only and never changes is_paid: when is_paid is true the
status is forced to completed, and when the status is completed while
is_paid is false the status is reverted to pending. -/
theorem c4_save_sync_one_sided (now : Time) (r : CoffeePurchase) :
    (save now r).is_paid = r.is_paid ∧
    (r.is_paid = true → (save now r).payment_status = "completed") ∧
    (r.is_paid = false → r.payment_status = "completed" →
      (save now r).payment_status = "pending") := by
  exact ⟨save_is_paid now r, save_status_of_paid now r,
    save_status_of_unpaid_completed now r⟩

/-- Witness for C4: the amended theorem applied to the concrete
mismatched row. -/
theorem c4_witness :
    (save 5 mismatchRec).payment_status = "pending" ∧
    (save 5 mismatchRec).is_paid = false := by
  have h := c4_save_sync_one_sided 5 mismatchRec
  exact ⟨h.2.2 rfl rfl, h.1.trans rfl⟩

/-! ### Claim C8 -/

/-- C8: the admin bulk mark-as-pending sets is_paid false and
payment_status pending, and leaves every other column of the row — in
particular paid_at, transaction_id and mpesa_code — unchanged. -/
theorem c8_mark_pending_frame (r : CoffeePurchase) :
    (admin_mark_as_pending r).is_paid = false ∧
    (admin_mark_as_pending r).payment_status = "pending" ∧
    (admin_mark_as_pending r).paid_at = r.paid_at ∧
    (admin_mark_as_pending r).transaction_id = r.transaction_id ∧
    (admin_mark_as_pending r).mpesa_code = r.mpesa_code ∧
    (admin_mark_as_pending r).id = r.id ∧
    (admin_mark_as_pending r).name = r.name ∧
    (admin_mark_as_pending r).email = r.email ∧
    (admin_mark_as_pending r).amount = r.amount ∧
    (admin_mark_as_pending r).currency = r.currency ∧
    (admin_mark_as_pending r).payment_method = r.payment_method ∧
    (admin_mark_as_pending r).message = r.message ∧
    (admin_mark_as_pending r).public_message = r.public_message ∧
    (admin_mark_as_pending r).ip_address = r.ip_address ∧
    (admin_mark_as_pending r).user_agent = r.user_agent ∧
    (admin_mark_as_pending r).created_at = r.created_at ∧
    (admin_mark_as_pending r).updated_at = r.updated_at :=
  ⟨rfl, rfl, rfl, rfl, rfl, rfl, rfl, rfl, rfl, rfl, rfl, rfl, rfl, rfl,
   rfl, rfl, rfl⟩

/-! ### Claim C3 -/

theorem save_statusSynced (now : Time) (r : CoffeePurchase) :
    statusSynced (save now r) := by
  cases hp : r.is_paid with
  | false =>
    have h1 := save_is_paid now r
    have h2 := save_status_of_unpaid now r hp
    constructor
    · intro hc
      rw [h1, hp] at hc
      exact absurd hc (by simp)
    · intro hc
      exact absurd hc h2
  | true =>
    exact ⟨fun _ => save_status_of_paid now r hp,
      fun _ => (save_is_paid now r).trans hp⟩

/-- C3: after any of the persisting operations — save, mark_as_paid,
either admin bulk action, or a successful create — the stored row
satisfies is_paid = true exactly when payment_status is completed. -/
theorem c3_paid_iff_completed (now : Time) (tid mcode : Option String)
    (r : CoffeePurchase) (rid : Nat) (nm em : String) (amount : Int)
    (msg : String) (ip : Option String) (ua : String) :
    statusSynced (save now r) ∧
    statusSynced (mark_as_paid now tid mcode r) ∧
    statusSynced (admin_mark_as_paid r) ∧
    statusSynced (admin_mark_as_pending r) ∧
    (∀ rc, create now rid nm em amount msg ip ua = .ok rc →
      statusSynced rc) := by
  refine ⟨save_statusSynced now r,
    ⟨fun _ => mark_as_paid_status now tid mcode r,
     fun _ => mark_as_paid_is_paid now tid mcode r⟩,
    ⟨fun _ => rfl, fun _ => rfl⟩,
    ?_, ?_⟩
  · constructor <;> intro hc <;> simp [admin_mark_as_pending] at hc
  · intro rc hok
    unfold create at hok
    split at hok
    · simp at hok
    · injection hok with h
      rw [← h]
      exact save_statusSynced now _

/-- Witness for C3: the theorem applied to the concrete mismatched row
and a concrete successful creation. -/
theorem c3_witness :
    statusSynced (save 0 mismatchRec) ∧
    statusSynced (admin_mark_as_pending mismatchRec) ∧
    ∃ rc, create 0 1 "" "" 500 "" none "" = Except.ok rc ∧
      statusSynced rc := by
  have h := c3_paid_iff_completed 0 none none mismatchRec 1 "" "" 500 "" none ""
  exact ⟨h.1, h.2.2.2.1, ⟨_, rfl, h.2.2.2.2 _ rfl⟩⟩

/-! ### Claim C5 -/

theorem append_ne_empty_left (a b : String) (h : a ≠ "") : a ++ b ≠ "" := by
  intro hab
  apply h
  have hd := congrArg String.data hab
  simp [String.data_append] at hd
  cases hd with
  | intro h1 h2 => exact String.ext (by simp [h1])

/-- C5: for a pending record with an assigned id, process_payment
returns true and leaves the record paid and completed, having set the
synthetic identifiers TXN_{id}_{timestamp} and MPE{id} through
mark_as_paid, which stamps paid_at. -/
theorem c5_process_payment_succeeds (now : Time) (r : CoffeePurchase)
    (i : Nat) (hid : r.id = some i)
    (_hpend : r.payment_status = "pending") :
    (process_payment now r).1 = true ∧
    (process_payment now r).2.transaction_id =
      "TXN_" ++ toString i ++ "_" ++ toString now ∧
    (process_payment now r).2.mpesa_code = "MPE" ++ toString i ∧
    (process_payment now r).2.is_paid = true ∧
    (process_payment now r).2.payment_status = "completed" ∧
    (process_payment now r).2.paid_at = some now := by
  unfold process_payment
  rw [hid]
  refine ⟨rfl, ?_, ?_,
    mark_as_paid_is_paid now _ _ r,
    mark_as_paid_status now _ _ r,
    mark_as_paid_paid_at now _ _ r⟩
  · exact mark_as_paid_tid_some now _ _ r
      (append_ne_empty_left _ _ (append_ne_empty_left _ _
        (append_ne_empty_left _ _ (by decide))))
  · exact mark_as_paid_mpesa_some now _ _ r
      (append_ne_empty_left _ _ (by decide))

/-- Witness for C5: the concrete pending row pendingRec (id 3) processed
at time 11. -/
theorem c5_witness :
    (process_payment 11 pendingRec).1 = true ∧
    (process_payment 11 pendingRec).2.transaction_id = "TXN_3_11" ∧
    (process_payment 11 pendingRec).2.mpesa_code = "MPE3" ∧
    (process_payment 11 pendingRec).2.is_paid = true ∧
    (process_payment 11 pendingRec).2.payment_status = "completed" ∧
    (process_payment 11 pendingRec).2.paid_at = some 11 := by
  have h := c5_process_payment_succeeds 11 pendingRec 3 rfl rfl
  exact ⟨h.1, h.2.1.trans (by decide), h.2.2.1.trans (by decide),
    h.2.2.2.1, h.2.2.2.2.1, h.2.2.2.2.2⟩

/-! ### Claim C6 -/

/-- C6: creation rejects every amount below 1.00 with ValidationError
and persists nothing, and every successful creation yields a row with
payment_status pending, is_paid false and paid_at null. -/
theorem c6_create_validation (now : Time) (rid : Nat) (nm em : String)
    (amount : Int) (msg : String) (ip : Option String) (ua : String) :
    (amount < 100 → create now rid nm em amount msg ip ua = .error ()) ∧
    (∀ rc, create now rid nm em amount msg ip ua = .ok rc →
      rc.payment_status = "pending" ∧ rc.is_paid = false ∧
      rc.paid_at = none) := by
  constructor
  · intro hlt
    simp [create, hlt]
  · intro rc hok
    unfold create at hok
    split at hok
    · simp at hok
    · injection hok with h
      rw [← h]
      refine ⟨?_, ?_, ?_⟩ <;>
        simp [save, persistRow, syncStatus, stampPaidAt]

/-- Witness for C6: a rejected amount of 0.50 and an accepted amount of
5.00. -/
theorem c6_witness :
    create 0 1 "" "" 50 "" none "" = Except.error () ∧
    ∃ rc, create 0 1 "" "" 500 "" none "" = Except.ok rc ∧
      rc.payment_status = "pending" ∧ rc.is_paid = false ∧
      rc.paid_at = none := by
  constructor
  · exact (c6_create_validation 0 1 "" "" 50 "" none "").1 (by decide)
  · exact ⟨_, rfl, (c6_create_validation 0 1 "" "" 500 "" none "").2 _ rfl⟩

/-! ### Claim C7 -/

/-- C7: the property describes the documented intent, but the code as
written raises TypeError: the stored amount is a decimal.Decimal while
coffee_price is the float literal 3.00, and Python refuses arithmetic
mixing Decimal with float. At the two amounts the claim names (9.00 and
3.50) the property fails — no value is returned — while the intended
floor semantics would give 3 and 1, as a pure float division also
would. -/
theorem c7_coffee_count_type_error :
    record_coffee_count { paidRec with amount := 900 } = none ∧
    record_coffee_count { paidRec with amount := 350 } = none ∧
    coffee_count_intended 900 = 3 ∧
    coffee_count_intended 350 = 1 ∧
    pyDivInt (.float 900) (.float 300) = some 3 ∧
    pyDivInt (.float 350) (.float 300) = some 1 := by
  decide

/-! ### Claim C9 -/

/-- C9: the public supporters listing contains only paid rows with a
public message drawn from the table, holds at most limit rows, is
ordered by paid_at descending (under the null-aware sort key), and when
no more than limit rows qualify it contains every qualifying row; the
donation page view issues it with limit 10. -/
theorem c9_public_supporters (limit : Nat) (db : List CoffeePurchase) :
    (∀ r ∈ list_public_supporters limit db,
      r.is_paid = true ∧ r.public_message = true ∧ r ∈ db) ∧
    (list_public_supporters limit db).length ≤ limit ∧
    (list_public_supporters limit db).Pairwise
      (fun a b => paidKey b.paid_at ≤ paidKey a.paid_at) ∧
    ((db.filter fun r => r.is_paid && r.public_message).length ≤ limit →
      ∀ r ∈ db, r.is_paid = true → r.public_message = true →
        r ∈ list_public_supporters limit db) ∧
    recent_supporters db = list_public_supporters 10 db := by
  refine ⟨?_, ?_, ?_, ?_, rfl⟩
  · intro r hr
    have hm := List.mem_mergeSort.mp (List.mem_of_mem_take hr)
    have hf := List.mem_filter.mp hm
    have hp : r.is_paid = true ∧ r.public_message = true := by
      simpa using hf.2
    exact ⟨hp.1, hp.2, hf.1⟩
  · unfold list_public_supporters
    rw [List.length_take]
    exact min_le_left _ _
  · have hs := @List.sorted_mergeSort CoffeePurchase
      (fun a b : CoffeePurchase =>
        decide (paidKey b.paid_at ≤ paidKey a.paid_at))
      (fun a b c hab hbc => by
        simp only [decide_eq_true_eq] at *
        omega)
      (fun a b => by
        simp only [Bool.or_eq_true, decide_eq_true_eq]
        omega)
      (db.filter fun r => r.is_paid && r.public_message)
    have hp := List.Pairwise.sublist (List.take_sublist limit _) hs
    exact hp.imp fun h => of_decide_eq_true h
  · intro hlen r hdb hp hpub
    unfold list_public_supporters
    rw [List.take_of_length_le]
    · exact List.mem_mergeSort.mpr
        (List.mem_filter.mpr ⟨hdb, by simp [hp, hpub]⟩)
    · rw [List.length_mergeSort]
      exact hlen

/-- Witness for C9: a one-row table whose single paid public row is
returned within the limit. -/
theorem c9_witness :
    paidRec ∈ list_public_supporters 1 [paidRec] ∧
    paidRec.is_paid = true ∧ paidRec.public_message = true := by
  have h := c9_public_supporters 1 [paidRec]
  have hmem := h.2.2.2.1 (by decide) paidRec (by decide) rfl rfl
  exact ⟨hmem, (h.1 paidRec hmem).1, (h.1 paidRec hmem).2.1⟩

/-! ### Claim C10 -/

/-- C10: SiteSettings.save forces the primary key to 1 before
persisting, so any row stored under key 1 after a save is exactly the
saved instance and, whenever the table already satisfies the
only-key-1 invariant, the saved table is the single row with key 1; and
SiteSettings.load returns the row with primary key 1, creating it from
the model defaults when absent. -/
theorem c10_site_settings_singleton (s : SiteSettings)
    (db : SettingsTable) :
    (save_settings s db).1.pk = some 1 ∧
    (∀ k v, (k, v) ∈ (save_settings s db).2 → k = 1 →
      v = { s with pk := some 1 }) ∧
    ((∀ p ∈ db, p.1 = 1) →
      (save_settings s db).2 = [(1, { s with pk := some 1 })]) ∧
    (∀ p, db.find? (fun q => q.1 == 1) = some p →
      load_settings db = (p.2, db)) ∧
    (db.find? (fun q => q.1 == 1) = none →
      (load_settings db).1 = { defaultSiteSettings with pk := some 1 } ∧
      (1, { defaultSiteSettings with pk := some 1 }) ∈
        (load_settings db).2) := by
  refine ⟨rfl, ?_, ?_, ?_, ?_⟩
  · intro k v hmem hk
    subst hk
    unfold save_settings upsert at hmem
    rcases List.mem_append.mp hmem with hin | hin
    · have hf := List.mem_filter.mp hin
      simp at hf
    · simp at hin
      exact hin
  · intro hall
    unfold save_settings upsert
    have hnil : db.filter (fun p => p.1 != 1) = [] := by
      rw [List.filter_eq_nil_iff]
      intro p hp
      simp [hall p hp]
    rw [hnil]
    rfl
  · intro p hf
    unfold load_settings
    rw [hf]
  · intro hn
    unfold load_settings
    rw [hn]
    exact ⟨rfl, by simp [save_settings, upsert]⟩

/-- Witness for C10: saving and loading against the empty table. -/
theorem c10_witness :
    (save_settings defaultSiteSettings []).1.pk = some 1 ∧
    (save_settings defaultSiteSettings []).2 =
      [(1, { defaultSiteSettings with pk := some 1 })] ∧
    (load_settings []).1 = { defaultSiteSettings with pk := some 1 } := by
  have h := c10_site_settings_singleton defaultSiteSettings []
  exact ⟨h.1, h.2.2.1 (by simp), (h.2.2.2.2 rfl).1⟩
